import Mathlib

/-!
Shallow embedding of `src/lib/fs/src/lib.rs`: the IPFS-backed read-only
virtual-filesystem adapter (`IpfsFs`) and its file handle (`IpfsFile`).

Byte sequences (Rust `Vec<u8>`, `&[u8]`, the bytes of a `&str` or `&Path`)
are modelled as `List Nat`; the asynchronous retrieval client is modelled
by the awaited result of its `get_file` future, since `open` blocks on it
with `block_on`.
-/

namespace WwFs

/-- The error kinds of the host's filesystem error type
(`wasmer_wasix::FsError`) that the adapter returns. -/
inductive FsError where
  | Unsupported
  | EntryNotFound
  | IOError
  deriving DecidableEq

/-- The `std::io::ErrorKind` values reachable from the handle's code
(`Unsupported` in the `AsyncWrite` stubs; `WriteZero` from the
`tokio::io::copy` loop used by `copy_reference`). -/
inductive IoErrorKind where
  | Unsupported
  | WriteZero
  deriving DecidableEq

/-- `std::io::Error`, reduced to its kind (the attached payload is only
carried for diagnostics in the source). -/
structure IoError where
  kind : IoErrorKind
  deriving DecidableEq

/-- The result of an embedded Rust operation: a normal return (`ok`), an
error value returned to the host (`err`), or a panic/abort (`panic`).  The
embedding of a Rust function uses `panic` exactly where the source would
panic; every `Err`/`?` path becomes `err`. -/
inductive Outcome (ε α : Type) where
  | ok (a : α)
  | err (e : ε)
  | panic
  deriving DecidableEq

/-- State of the byte-level UTF-8 acceptor behind `Path::to_str` /
`str::from_utf8`: either between scalar values, or expecting `k` more
continuation bytes with the next byte constrained to `[lo, hi]`. -/
inductive Utf8State where
  | start
  | need (k : Nat) (lo : Nat) (hi : Nat)
  deriving DecidableEq

/-- One byte of UTF-8 validation (the standard table for `str::from_utf8`:
overlong encodings, surrogates, and values above U+10FFFF are rejected). -/
def utf8Step (s : Utf8State) (b : Nat) : Option Utf8State :=
  match s with
  | .start =>
    if b ≤ 0x7F then some .start
    else if 0xC2 ≤ b && b ≤ 0xDF then some (.need 1 0x80 0xBF)
    else if b = 0xE0 then some (.need 2 0xA0 0xBF)
    else if 0xE1 ≤ b && b ≤ 0xEC then some (.need 2 0x80 0xBF)
    else if b = 0xED then some (.need 2 0x80 0x9F)
    else if 0xEE ≤ b && b ≤ 0xEF then some (.need 2 0x80 0xBF)
    else if b = 0xF0 then some (.need 3 0x90 0xBF)
    else if 0xF1 ≤ b && b ≤ 0xF3 then some (.need 3 0x80 0xBF)
    else if b = 0xF4 then some (.need 3 0x80 0x8F)
    else none
  | .need k lo hi =>
    if lo ≤ b && b ≤ hi then
      if k ≤ 1 then some .start else some (.need (k - 1) 0x80 0xBF)
    else none

/-- Run the UTF-8 acceptor over a byte list; accept only when no
continuation bytes are pending at the end. -/
def utf8Run (s : Utf8State) : List Nat → Bool
  | [] => match s with | .start => true | .need _ _ _ => false
  | b :: rest =>
    match utf8Step s b with
    | none => false
    | some s1 => utf8Run s1 rest

/-- Validity of a byte sequence as UTF-8. -/
def isValidUtf8 (l : List Nat) : Bool :=
  utf8Run .start l

/-- `Path::to_str`: the path's bytes viewed as a `&str` when they are valid
UTF-8 (the resulting string has exactly the same bytes), `None` otherwise. -/
def Path.to_str (p : List Nat) : Option (List Nat) :=
  if isValidUtf8 p then some p else none

/-- The retrieval client (`net::ipfs::Client`), an external collaborator.
`get_file` takes the key (the bytes of a `&str`) and is modelled by the
awaited result of its future: the full byte content, or an error. -/
structure Client where
  get_file : List Nat → Except String (List Nat)

/-- `IpfsFs`: the filesystem adapter; holds only the retrieval client. -/
structure IpfsFs where
  client : Client

/-- `IpfsFs::new`. -/
def IpfsFs.new (client : Client) : IpfsFs :=
  { client := client }

/-- `virtual_fs::Metadata` (a type of the external host crate), reduced to
the fields the spec describes: type flags, timestamps, and length.  Its
`Default` is the zeroed record. -/
structure Metadata where
  ft_dir : Bool
  ft_file : Bool
  ft_symlink : Bool
  accessed : Nat
  created : Nat
  modified : Nat
  len : Nat
  deriving DecidableEq

/-- `Metadata::default()`: everything zeroed / false. -/
def Metadata.default : Metadata :=
  { ft_dir := false, ft_file := false, ft_symlink := false,
    accessed := 0, created := 0, modified := 0, len := 0 }

/-- `virtual_fs::OpenOptionsConfig` (external host crate): the open-mode
flags passed to `FileOpener::open`. -/
structure OpenOptionsConfig where
  read : Bool
  write : Bool
  create_new : Bool
  create : Bool
  append : Bool
  truncate : Bool
  deriving DecidableEq

/-
The `virtual_fs::FileSystem` impl for `IpfsFs`.  Each method takes the
receiver by `&self`; the embedding returns the (necessarily unchanged)
receiver alongside the result so that absence of state change is part of
each operation's statement.
-/

/-- `IpfsFs::readlink`: unconditionally `Err(FsError::Unsupported)`. -/
def IpfsFs.readlink (fs : IpfsFs) (path : List Nat) :
    Outcome FsError (List Nat) × IpfsFs :=
  (.err .Unsupported, fs)

/-- `IpfsFs::read_dir`: unconditionally `Err(FsError::Unsupported)`.  The
`ReadDir` success payload (never produced) is modelled as `Unit`. -/
def IpfsFs.read_dir (fs : IpfsFs) (path : List Nat) :
    Outcome FsError Unit × IpfsFs :=
  (.err .Unsupported, fs)

/-- `IpfsFs::create_dir`: unconditionally `Err(FsError::Unsupported)`. -/
def IpfsFs.create_dir (fs : IpfsFs) (path : List Nat) :
    Outcome FsError Unit × IpfsFs :=
  (.err .Unsupported, fs)

/-- `IpfsFs::remove_dir`: unconditionally `Err(FsError::Unsupported)`. -/
def IpfsFs.remove_dir (fs : IpfsFs) (path : List Nat) :
    Outcome FsError Unit × IpfsFs :=
  (.err .Unsupported, fs)

/-- `IpfsFs::rename` (async in the source; modelled by the awaited
result): unconditionally `Err(FsError::Unsupported)`. -/
def IpfsFs.rename (fs : IpfsFs) (src : List Nat) (dst : List Nat) :
    Outcome FsError Unit × IpfsFs :=
  (.err .Unsupported, fs)

/-- `IpfsFs::metadata`: always `Ok(Metadata::default())`. -/
def IpfsFs.metadata (fs : IpfsFs) (path : List Nat) :
    Outcome FsError Metadata × IpfsFs :=
  (.ok Metadata.default, fs)

/-- `IpfsFs::symlink_metadata`: unconditionally `Err(FsError::Unsupported)`. -/
def IpfsFs.symlink_metadata (fs : IpfsFs) (path : List Nat) :
    Outcome FsError Metadata × IpfsFs :=
  (.err .Unsupported, fs)

/-- `IpfsFs::remove_file`: unconditionally `Err(FsError::Unsupported)`. -/
def IpfsFs.remove_file (fs : IpfsFs) (path : List Nat) :
    Outcome FsError Unit × IpfsFs :=
  (.err .Unsupported, fs)

/-- `IpfsFs::new_open_options`: an options builder with only `read` set. -/
def IpfsFs.new_open_options (fs : IpfsFs) :
    OpenOptionsConfig × IpfsFs :=
  ({ read := true, write := false, create_new := false, create := false,
     append := false, truncate := false }, fs)

/-- `IpfsFs::mount`: unconditionally `Err(FsError::Unsupported)`.  The
mounted filesystem argument (`Box<dyn FileSystem>`) is never inspected and
is modelled as `Unit`. -/
def IpfsFs.mount (fs : IpfsFs) (name : List Nat) (path : List Nat)
    (sub : Unit) : Outcome FsError Unit × IpfsFs :=
  (.err .Unsupported, fs)

/-- `IpfsFile`: a handle over the fetched bytes.  `cursor_data` and
`cursor_pos` are the buffer and position of the `Cursor<Vec<u8>>` field. -/
structure IpfsFile where
  path : List Nat
  size : Nat
  cursor_data : List Nat
  cursor_pos : Nat
  deriving DecidableEq

/-- `IpfsFile::new`: records `bytes.len()` as the size and wraps the bytes
in a fresh cursor (`Cursor::new` starts at position 0). -/
def IpfsFile.new (path : List Nat) (bytes : List Nat) : IpfsFile :=
  { path := path, size := bytes.length, cursor_data := bytes,
    cursor_pos := 0 }

/-- `IpfsFs as FileOpener::open` (named `open_file` here because `open` is
a Lean keyword): converts the path via `to_str` (failing with
`EntryNotFound`), blocks on the client's `get_file`, and on success wraps
the bytes in an `IpfsFile`; on fetch failure returns `IOError`. -/
def IpfsFs.open_file (fs : IpfsFs) (path : List Nat)
    (conf : OpenOptionsConfig) : Outcome FsError IpfsFile :=
  match Path.to_str path with
  | none => .err .EntryNotFound
  | some path_str =>
    match fs.client.get_file path_str with
    | .ok b => .ok (IpfsFile.new path_str b)
    | .error _ => .err .IOError

/-- `tokio::io::ReadBuf`: a caller-provided buffer with a fixed capacity
and the prefix filled so far. -/
structure ReadBuf where
  capacity : Nat
  filled : List Nat
  deriving DecidableEq

/-- A fresh, empty `ReadBuf` of the given capacity. -/
def ReadBuf.new (cap : Nat) : ReadBuf :=
  { capacity := cap, filled := [] }

/-- `SeekFrom` of `std::io`. -/
inductive SeekFrom where
  | Start (n : Nat)
  | Current (n : Int)
  | End (n : Int)
  deriving DecidableEq

/-- `IpfsFile as AsyncRead::poll_read`: the source returns
`Poll::Ready(Ok(()))` without touching the buffer or the cursor. -/
def IpfsFile.poll_read (f : IpfsFile) (buf : ReadBuf) :
    Outcome IoError Unit × IpfsFile × ReadBuf :=
  (.ok (), f, buf)

/-- `IpfsFile as AsyncSeek::start_seek`: the source ignores `position` and
returns `Ok(())`. -/
def IpfsFile.start_seek (f : IpfsFile) (position : SeekFrom) :
    Outcome IoError Unit × IpfsFile :=
  (.ok (), f)

/-- `IpfsFile as AsyncSeek::poll_complete`: the source always returns
`Poll::Ready(Ok(0))`. -/
def IpfsFile.poll_complete (f : IpfsFile) :
    Outcome IoError Nat × IpfsFile :=
  (.ok 0, f)

/-- `IpfsFile as AsyncWrite::poll_write`: always an `Unsupported`-kind
`io::Error`. -/
def IpfsFile.poll_write (f : IpfsFile) (buf : List Nat) :
    Outcome IoError Nat × IpfsFile :=
  (.err { kind := .Unsupported }, f)

/-- `IpfsFile as AsyncWrite::poll_flush`: always an `Unsupported`-kind
`io::Error`. -/
def IpfsFile.poll_flush (f : IpfsFile) :
    Outcome IoError Unit × IpfsFile :=
  (.err { kind := .Unsupported }, f)

/-- `IpfsFile as AsyncWrite::poll_shutdown`: always an `Unsupported`-kind
`io::Error`. -/
def IpfsFile.poll_shutdown (f : IpfsFile) :
    Outcome IoError Unit × IpfsFile :=
  (.err { kind := .Unsupported }, f)

/-- `IpfsFile::last_accessed`: always 0. -/
def IpfsFile.last_accessed (f : IpfsFile) : Nat := 0

/-- `IpfsFile::last_modified`: always 0. -/
def IpfsFile.last_modified (f : IpfsFile) : Nat := 0

/-- `IpfsFile::created_time`: always 0. -/
def IpfsFile.created_time (f : IpfsFile) : Nat := 0

/-- `IpfsFile::set_times`: unconditionally `Err(FsError::Unsupported)`. -/
def IpfsFile.set_times (f : IpfsFile) (atime : Option Nat)
    (mtime : Option Nat) : Outcome FsError Unit × IpfsFile :=
  (.err .Unsupported, f)

/-- `IpfsFile::size` returns `self.size as u64`; the embedding's `size`
field is that value (the `usize → u64` cast is lossless). -/
def IpfsFile.size_val (f : IpfsFile) : Nat := f.size

/-- `IpfsFile::set_len`: unconditionally `Err(FsError::Unsupported)`. -/
def IpfsFile.set_len (f : IpfsFile) (new_size : Nat) :
    Outcome FsError Unit × IpfsFile :=
  (.err .Unsupported, f)

/-- `IpfsFile::unlink`: unconditionally `Err(FsError::Unsupported)`. -/
def IpfsFile.unlink (f : IpfsFile) :
    Outcome FsError Unit × IpfsFile :=
  (.err .Unsupported, f)

/-- `IpfsFile::is_open`: always `true`. -/
def IpfsFile.is_open (f : IpfsFile) : Bool := true

/-- `IpfsFile::get_special_fd`: always `None`. -/
def IpfsFile.get_special_fd (f : IpfsFile) : Option Nat := none

/-- `IpfsFile::write_from_mmap`: always an `Unsupported`-kind `io::Error`. -/
def IpfsFile.write_from_mmap (f : IpfsFile) (offset : Nat) (len : Nat) :
    Outcome IoError Unit × IpfsFile :=
  (.err { kind := .Unsupported }, f)

/-- The `tokio::io::copy` loop used by `copy_reference`, writing into an
`IpfsFile`.  The source stream is modelled by the byte list it will yield;
each read succeeds and returns up to the 8192-byte chunk size, a read of 0
bytes meaning end of stream.  A successful partial write advances the
source; a write of 0 bytes is a `WriteZero` error. -/
def copy_from (src : List Nat) (dst : IpfsFile) (total : Nat) :
    Outcome IoError Nat × IpfsFile :=
  match src with
  | [] => (.ok total, dst)
  | b :: rest =>
    match IpfsFile.poll_write dst (List.take 8192 (b :: rest)) with
    | (.err e, dst1) => (.err e, dst1)
    | (.ok 0, dst1) => (.err { kind := .WriteZero }, dst1)
    | (.ok (n + 1), dst1) => copy_from (List.drop n rest) dst1 (total + (n + 1))
    | (.panic, dst1) => (.panic, dst1)
termination_by src.length
decreasing_by
  simp [List.length_drop]
  omega

/-- `IpfsFile::copy_reference`: `tokio::io::copy(&mut src, self).await?`
then `Ok(())`. -/
def IpfsFile.copy_reference (f : IpfsFile) (src : List Nat) :
    Outcome IoError Unit × IpfsFile :=
  match copy_from src f 0 with
  | (.ok _, f1) => (.ok (), f1)
  | (.err e, f1) => (.err e, f1)
  | (.panic, f1) => (.panic, f1)

/-- `IpfsFile::poll_read_ready`: always `Poll::Ready(Ok(0))`. -/
def IpfsFile.poll_read_ready (f : IpfsFile) :
    Outcome IoError Nat × IpfsFile :=
  (.ok 0, f)

/-- `IpfsFile::poll_write_ready`: always `Poll::Ready(Ok(0))`. -/
def IpfsFile.poll_write_ready (f : IpfsFile) :
    Outcome IoError Nat × IpfsFile :=
  (.ok 0, f)

/-- The handle invariant the spec states: the stored size equals the
buffer length, and the cursor position lies in `[0, size]`. -/
def IpfsFile.sizeCursorInv (f : IpfsFile) : Prop :=
  f.size = f.cursor_data.length ∧ f.cursor_pos ≤ f.size

/-- Example retrieval client that returns the bytes of `"hi"` for every
key. -/
def clientHi : Client :=
  { get_file := fun _ => .ok [104, 105] }

/-- Example retrieval client whose fetch always fails. -/
def clientFail : Client :=
  { get_file := fun _ => .error "fetch failed" }

/-- The bytes of the path `"/a.txt"`. -/
def pathA : List Nat :=
  [47, 97, 46, 116, 120, 116]

/-- A read-only open-options configuration (the one `new_open_options`
builds). -/
def confRead : OpenOptionsConfig :=
  { read := true, write := false, create_new := false, create := false,
    append := false, truncate := false }

/-- The handle produced by a successful open of `pathA` with content
`"hi"`. -/
def exFile : IpfsFile :=
  IpfsFile.new pathA [104, 105]

/-- `copy_from` in closed form: the destination's `poll_write` always
fails with `Unsupported`, so the copy errors on any nonempty source,
succeeds trivially on an empty one, and never changes the destination. -/
theorem copy_from_eq (src : List Nat) (f : IpfsFile) (t : Nat) :
    copy_from src f t =
      match src with
      | [] => (.ok t, f)
      | _ :: _ => (.err { kind := .Unsupported }, f) := by
  cases src with
  | nil => simp [copy_from]
  | cons b rest => simp [copy_from, IpfsFile.poll_write]

/-- `copy_reference` in closed form, by `copy_from_eq`. -/
theorem copy_reference_eq (f : IpfsFile) (src : List Nat) :
    f.copy_reference src =
      match src with
      | [] => (.ok (), f)
      | _ :: _ => (.err { kind := .Unsupported }, f) := by
  cases src with
  | nil => simp [IpfsFile.copy_reference, copy_from_eq]
  | cons b rest => simp [IpfsFile.copy_reference, copy_from_eq]

/-- C1: code-bug witness.  With the client returning `B = [104, 105]` for
path `/a.txt`, `open` yields a handle with `size = len B = 2` as claimed,
but `poll_read` into a fresh buffer of capacity 2 is a stub: it returns
success while leaving the buffer empty and the handle untouched, so the
read yields 0 bytes rather than `B`. -/
theorem open_read_yields_no_bytes :
    IpfsFs.open_file { client := clientHi } pathA confRead = .ok exFile ∧
    exFile.size_val = 2 ∧
    exFile.poll_read (ReadBuf.new 2) = (.ok (), exFile, ReadBuf.new 2) ∧
    (ReadBuf.new 2).filled = [] ∧
    ([] : List Nat) ≠ [104, 105] :=
  ⟨rfl, rfl, rfl, rfl, by decide⟩

/-- C2: code-bug witness.  For the handle over `B = [104, 105]` (length 2)
and offset `k = 1`: `start_seek (Start 1)` leaves the handle — hence its
cursor, still at 0 — unchanged, `poll_complete` reports position 0, and a
following read fills no bytes, so seek-then-read yields `[]` instead of
the suffix `B.drop 1 = [105]`. -/
theorem seek_then_read_yields_no_bytes :
    exFile.start_seek (SeekFrom.Start 1) = (.ok (), exFile) ∧
    exFile.poll_complete = (.ok 0, exFile) ∧
    (exFile.poll_read (ReadBuf.new 1)).2.2.filled = [] ∧
    List.drop 1 [104, 105] = [105] ∧
    ([105] : List Nat) ≠ [] :=
  ⟨rfl, rfl, rfl, rfl, by decide⟩

/-- C3: if the path converts to a retrieval key and the client's fetch for
that key fails, `open` fails with `IOError` and no handle is produced. -/
theorem open_fetch_failure_is_ioerror (fs : IpfsFs) (path key : List Nat)
    (conf : OpenOptionsConfig) (e : String)
    (hkey : Path.to_str path = some key)
    (hfail : fs.client.get_file key = .error e) :
    fs.open_file path conf = .err FsError.IOError ∧
    ∀ f : IpfsFile, fs.open_file path conf ≠ .ok f := by
  constructor
  · simp [IpfsFs.open_file, hkey, hfail]
  · intro f
    simp [IpfsFs.open_file, hkey, hfail]

/-- C3 witness: a concrete always-failing client and the path `/a.txt`. -/
theorem open_fetch_failure_is_ioerror_witness :
    Path.to_str pathA = some pathA ∧
    Client.get_file clientFail pathA = .error "fetch failed" ∧
    IpfsFs.open_file { client := clientFail } pathA confRead =
      .err FsError.IOError :=
  ⟨by decide, rfl,
   (open_fetch_failure_is_ioerror { client := clientFail } pathA pathA
      confRead "fetch failed" (by decide) rfl).1⟩

/-- C4: `metadata` succeeds with the zeroed default record for every path,
leaves the adapter unchanged, and never consults the retrieval client: two
adapters differing only in their client answer identically. -/
theorem metadata_always_default (c1 c2 : Client) (path : List Nat) :
    IpfsFs.metadata { client := c1 } path =
      (.ok Metadata.default, { client := c1 }) ∧
    (IpfsFs.metadata { client := c1 } path).1 =
      (IpfsFs.metadata { client := c2 } path).1 :=
  ⟨rfl, rfl⟩

/-- C5: each structural/mutating adapter operation — `readlink`,
`read_dir`, `create_dir`, `remove_dir`, `remove_file`, `rename`,
`symlink_metadata`, `mount` — fails with `Unsupported` on every input and
returns the adapter unchanged. -/
theorem structural_ops_unsupported (fs : IpfsFs)
    (name path p1 p2 : List Nat) (sub : Unit) :
    fs.readlink path = (.err FsError.Unsupported, fs) ∧
    fs.read_dir path = (.err FsError.Unsupported, fs) ∧
    fs.create_dir path = (.err FsError.Unsupported, fs) ∧
    fs.remove_dir path = (.err FsError.Unsupported, fs) ∧
    fs.remove_file path = (.err FsError.Unsupported, fs) ∧
    fs.rename p1 p2 = (.err FsError.Unsupported, fs) ∧
    fs.symlink_metadata path = (.err FsError.Unsupported, fs) ∧
    fs.mount name path sub = (.err FsError.Unsupported, fs) :=
  ⟨rfl, rfl, rfl, rfl, rfl, rfl, rfl, rfl⟩

/-- C6: each write-path operation on a handle — `poll_write`,
`poll_flush`, `poll_shutdown`, `set_len`, `unlink`, `set_times` — fails
with an `Unsupported`-kind error and returns the handle (buffer, cursor
and size) unchanged. -/
theorem write_ops_unsupported (f : IpfsFile) (buf : List Nat)
    (atime mtime : Option Nat) (new_size : Nat) :
    f.poll_write buf = (.err { kind := IoErrorKind.Unsupported }, f) ∧
    f.poll_flush = (.err { kind := IoErrorKind.Unsupported }, f) ∧
    f.poll_shutdown = (.err { kind := IoErrorKind.Unsupported }, f) ∧
    f.set_len new_size = (.err FsError.Unsupported, f) ∧
    f.unlink = (.err FsError.Unsupported, f) ∧
    f.set_times atime mtime = (.err FsError.Unsupported, f) :=
  ⟨rfl, rfl, rfl, rfl, rfl, rfl⟩

/-- C7: a path that is not representable as a retrieval key (not valid
UTF-8) makes `open` fail with `EntryNotFound`, and no fetch is issued: the
result is identical for any two clients. -/
theorem open_invalid_path_entry_not_found (c1 c2 : Client)
    (path : List Nat) (conf : OpenOptionsConfig)
    (h : Path.to_str path = none) :
    IpfsFs.open_file { client := c1 } path conf =
      .err FsError.EntryNotFound ∧
    IpfsFs.open_file { client := c1 } path conf =
      IpfsFs.open_file { client := c2 } path conf := by
  constructor
  · simp [IpfsFs.open_file, h]
  · simp [IpfsFs.open_file, h]

/-- C7 witness: the single byte `0xFF` is not valid UTF-8. -/
theorem open_invalid_path_entry_not_found_witness :
    Path.to_str [255] = none ∧
    IpfsFs.open_file { client := clientHi } [255] confRead =
      .err FsError.EntryNotFound :=
  ⟨by decide,
   (open_invalid_path_entry_not_found clientHi clientFail [255] confRead
      (by decide)).1⟩

/-- C8: the size/cursor invariant holds for a freshly created handle and
is preserved by every handle operation. -/
theorem handle_invariant_preserved (path bytes buf src : List Nat)
    (f : IpfsFile) (rb : ReadBuf) (pos : SeekFrom)
    (atime mtime : Option Nat) (n m : Nat)
    (h : f.sizeCursorInv) :
    (IpfsFile.new path bytes).sizeCursorInv ∧
    (f.poll_read rb).2.1.sizeCursorInv ∧
    (f.start_seek pos).2.sizeCursorInv ∧
    f.poll_complete.2.sizeCursorInv ∧
    (f.poll_write buf).2.sizeCursorInv ∧
    f.poll_flush.2.sizeCursorInv ∧
    f.poll_shutdown.2.sizeCursorInv ∧
    (f.set_times atime mtime).2.sizeCursorInv ∧
    (f.set_len n).2.sizeCursorInv ∧
    f.unlink.2.sizeCursorInv ∧
    (f.write_from_mmap n m).2.sizeCursorInv ∧
    (f.copy_reference src).2.sizeCursorInv ∧
    f.poll_read_ready.2.sizeCursorInv ∧
    f.poll_write_ready.2.sizeCursorInv := by
  refine ⟨⟨rfl, Nat.zero_le _⟩, h, h, h, h, h, h, h, h, h, h, ?_, h, h⟩
  rw [copy_reference_eq]
  cases src with
  | nil => exact h
  | cons b rest => exact h

/-- C8 witness: the example handle satisfies the invariant at creation and
still does after an `unlink` attempt. -/
theorem handle_invariant_preserved_witness :
    exFile.sizeCursorInv ∧ exFile.unlink.2.sizeCursorInv :=
  ⟨⟨rfl, Nat.zero_le _⟩,
   (handle_invariant_preserved pathA [104, 105] [] [] exFile
      (ReadBuf.new 2) (SeekFrom.Start 0) none none 0 0
      ⟨rfl, Nat.zero_le _⟩).2.2.2.2.2.2.2.2.2.1⟩

/-- C9: no operation of the adapter or of a handle panics: every result is
a normal return or an error value handed back to the host. -/
theorem no_operation_panics (fs : IpfsFs) (f : IpfsFile)
    (name path p1 p2 buf src : List Nat) (sub : Unit)
    (conf : OpenOptionsConfig) (rb : ReadBuf) (pos : SeekFrom)
    (atime mtime : Option Nat) (n m : Nat) :
    (fs.readlink path).1 ≠ .panic ∧
    (fs.read_dir path).1 ≠ .panic ∧
    (fs.create_dir path).1 ≠ .panic ∧
    (fs.remove_dir path).1 ≠ .panic ∧
    (fs.rename p1 p2).1 ≠ .panic ∧
    (fs.metadata path).1 ≠ .panic ∧
    (fs.symlink_metadata path).1 ≠ .panic ∧
    (fs.remove_file path).1 ≠ .panic ∧
    (fs.mount name path sub).1 ≠ .panic ∧
    fs.open_file path conf ≠ .panic ∧
    (f.poll_read rb).1 ≠ .panic ∧
    (f.start_seek pos).1 ≠ .panic ∧
    f.poll_complete.1 ≠ .panic ∧
    (f.poll_write buf).1 ≠ .panic ∧
    f.poll_flush.1 ≠ .panic ∧
    f.poll_shutdown.1 ≠ .panic ∧
    (f.set_times atime mtime).1 ≠ .panic ∧
    (f.set_len n).1 ≠ .panic ∧
    f.unlink.1 ≠ .panic ∧
    (f.write_from_mmap n m).1 ≠ .panic ∧
    (f.copy_reference src).1 ≠ .panic ∧
    f.poll_read_ready.1 ≠ .panic ∧
    f.poll_write_ready.1 ≠ .panic := by
  refine ⟨by simp [IpfsFs.readlink], by simp [IpfsFs.read_dir],
    by simp [IpfsFs.create_dir], by simp [IpfsFs.remove_dir],
    by simp [IpfsFs.rename], by simp [IpfsFs.metadata],
    by simp [IpfsFs.symlink_metadata], by simp [IpfsFs.remove_file],
    by simp [IpfsFs.mount], ?_,
    by simp [IpfsFile.poll_read], by simp [IpfsFile.start_seek],
    by simp [IpfsFile.poll_complete], by simp [IpfsFile.poll_write],
    by simp [IpfsFile.poll_flush], by simp [IpfsFile.poll_shutdown],
    by simp [IpfsFile.set_times], by simp [IpfsFile.set_len],
    by simp [IpfsFile.unlink], by simp [IpfsFile.write_from_mmap],
    ?_, by simp [IpfsFile.poll_read_ready],
    by simp [IpfsFile.poll_write_ready]⟩
  · unfold IpfsFs.open_file
    split
    · simp
    · split <;> simp
  · rw [copy_reference_eq]
    cases src with
    | nil => simp
    | cons b rest => simp

/-- C10: `open` never inspects the open-options configuration: for the
same adapter and path, any two configurations produce identical results. -/
theorem open_ignores_options (fs : IpfsFs) (path : List Nat)
    (c1 c2 : OpenOptionsConfig) :
    fs.open_file path c1 = fs.open_file path c2 :=
  rfl

end WwFs
